import Mathlib

/-!
Shallow embedding of the request-dispatch and DMA-lifecycle logic of
`src/ADMA_Driver/file_io.c` (MaybeNext/xadma).  Each driver routine is
translated into a pure Lean function; the externally visible effects of a
routine (WDF request completion/forwarding, DMA transaction calls, register
accesses, event operations) are recorded as a list of `Action`s, and results
of framework calls (`Wdf*`) that the routine merely consumes are passed in as
parameters.  Trace output and interrupt-enable toggling are not modelled; they
are irrelevant to the properties below.
-/

namespace Adma

/-! NTSTATUS values used by `file_io.c`, as 32-bit unsigned numerals.
`NT_SUCCESS(s)` is the Windows macro: the signed value is nonnegative. -/

def STATUS_SUCCESS : Nat := 0

def STATUS_TIMEOUT : Nat := 0x00000102

def STATUS_INVALID_PARAMETER : Nat := 0xC000000D

def STATUS_INVALID_DEVICE_REQUEST : Nat := 0xC0000010

def STATUS_DEVICE_NOT_READY : Nat := 0xC00000A3

def STATUS_CANCELLED : Nat := 0xC0000120

def NT_SUCCESS (s : Nat) : Bool := s < 0x80000000

/-! Device node kinds (`DEVNODE_TYPE` in the driver headers; the members used
by `file_io.c` are listed there).  `UNKNOWN` is `ID_DEVNODE_UNKNOWN`. -/

inductive DEVNODE_TYPE where
  | H2C
  | C2H
  | AH2C
  | AC2H
  | USER
  | CONTROL
  | BYPASS
  | EVENTS
  | UNKNOWN
deriving DecidableEq, Repr

inductive DirToDev where
  | H2C
  | C2H
deriving DecidableEq, Repr

/-- Modelled from the spec: the value of the `ADMA_FILE_H2C_0` name macro lives
in `adma_public.h`, which is not among the sources; spec §6 gives the symbolic
name `h2c_0`. -/
def ADMA_FILE_H2C_0 : String := "h2c_0"

/-- Modelled from the spec: value of `ADMA_FILE_C2H_0` (`adma_public.h`),
symbolic name `c2h_0` per spec §6. -/
def ADMA_FILE_C2H_0 : String := "c2h_0"

/-- Modelled from the spec: value of `ADMA_FILE_USER` (`adma_public.h`),
symbolic name `user` per spec §6. -/
def ADMA_FILE_USER : String := "user"

/-- Modelled from the spec: value of `ADMA_FILE_CONTROL` (`adma_public.h`),
symbolic name `control` per spec §6. -/
def ADMA_FILE_CONTROL : String := "control"

/-- The static lookup table of `file_io.c` lines 46-55: exactly four entries,
each `(devType, name, channel)`. -/
def FileNameLUT : List (DEVNODE_TYPE × String × Nat) :=
  [(DEVNODE_TYPE.AH2C, ADMA_FILE_H2C_0, 0),
   (DEVNODE_TYPE.AC2H, ADMA_FILE_C2H_0, 0),
   (DEVNODE_TYPE.USER, ADMA_FILE_USER, 0),
   (DEVNODE_TYPE.CONTROL, ADMA_FILE_CONTROL, 0)]

/-- The linear first-match scan of `GetDevNodeType` (lines 57-69); on no match
the file context's type becomes `ID_DEVNODE_UNKNOWN` and the caller-initialised
index 0 is left untouched. -/
def lutScan : List (DEVNODE_TYPE × String × Nat) → String → DEVNODE_TYPE × Nat
  | [], _ => (DEVNODE_TYPE.UNKNOWN, 0)
  | e :: rest, fileName =>
    if fileName = e.2.1 then (e.1, e.2.2) else lutScan rest fileName

def GetDevNodeType (fileName : String) : DEVNODE_TYPE × Nat :=
  lutScan FileNameLUT fileName

/-- One hardware DMA engine (`ADMA_ENGINE`), restricted to the fields
`file_io.c` reads: `enabled`, `poll`, and whether `type == EngineType_ST`. -/
structure ADMA_ENGINE where
  enabled : Bool
  poll : Bool
  streamType : Bool
deriving DecidableEq, Repr

/-- The device state (`ADMA_DEVICE`) as read by `EvtDeviceFileCreate` and
`ValidateBarParams`: bar table geometry and the engine array. -/
structure ADMA_DEVICE where
  numBars : Nat
  barLength : Nat → Nat
  configBarIdx : Nat
  userBarIdx : Int
  bypassBarIdx : Int
  engines : Nat → DirToDev → ADMA_ENGINE

/-- What resource the created file context points at (`devNode->u` union plus
`devNode->queue`). -/
inductive Binding where
  | none
  | bar (idx : Nat)
  | engine (channel : Nat) (dir : DirToDev)
  | event (idx : Nat)
deriving DecidableEq, Repr

structure CreateResult where
  status : Nat
  devType : DEVNODE_TYPE
  binding : Binding
  queueBound : Bool
  ringSetup : Bool
deriving DecidableEq, Repr

/-- `EvtDeviceFileCreate` (lines 71-180): name lookup, the per-kind checks of
the switch, and the resource binding.  The request is always completed with
the resulting status; interrupt toggling for `H2C`/`C2H` nodes is not
modelled (the `AH2C`/`AC2H` variant has it compiled out). -/
def EvtDeviceFileCreate (adma : ADMA_DEVICE) (fileName : Option String) : CreateResult :=
  match fileName with
  | Option.none => ⟨STATUS_INVALID_PARAMETER, DEVNODE_TYPE.UNKNOWN, Binding.none, false, false⟩
  | Option.some name =>
    let r := GetDevNodeType name
    match r.1 with
    | DEVNODE_TYPE.UNKNOWN =>
      ⟨STATUS_INVALID_PARAMETER, DEVNODE_TYPE.UNKNOWN, Binding.none, false, false⟩
    | DEVNODE_TYPE.CONTROL =>
      ⟨STATUS_SUCCESS, DEVNODE_TYPE.CONTROL, Binding.bar adma.configBarIdx, false, false⟩
    | DEVNODE_TYPE.USER =>
      if adma.userBarIdx < 0 then
        ⟨STATUS_INVALID_PARAMETER, DEVNODE_TYPE.USER, Binding.none, false, false⟩
      else
        ⟨STATUS_SUCCESS, DEVNODE_TYPE.USER, Binding.bar adma.userBarIdx.toNat, false, false⟩
    | DEVNODE_TYPE.BYPASS =>
      if adma.bypassBarIdx < 0 then
        ⟨STATUS_INVALID_PARAMETER, DEVNODE_TYPE.BYPASS, Binding.none, false, false⟩
      else
        ⟨STATUS_SUCCESS, DEVNODE_TYPE.BYPASS, Binding.bar adma.bypassBarIdx.toNat, false, false⟩
    | DEVNODE_TYPE.H2C =>
      let engine := adma.engines r.2 DirToDev.H2C
      if engine.enabled = false then
        ⟨STATUS_INVALID_PARAMETER, DEVNODE_TYPE.H2C, Binding.none, false, false⟩
      else
        ⟨STATUS_SUCCESS, DEVNODE_TYPE.H2C, Binding.engine r.2 DirToDev.H2C, true, false⟩
    | DEVNODE_TYPE.C2H =>
      let engine := adma.engines r.2 DirToDev.C2H
      if engine.enabled = false then
        ⟨STATUS_INVALID_PARAMETER, DEVNODE_TYPE.C2H, Binding.none, false, false⟩
      else
        ⟨STATUS_SUCCESS, DEVNODE_TYPE.C2H, Binding.engine r.2 DirToDev.C2H, true,
          engine.streamType⟩
    | DEVNODE_TYPE.AH2C =>
      let engine := adma.engines r.2 DirToDev.H2C
      if engine.enabled = false then
        ⟨STATUS_INVALID_PARAMETER, DEVNODE_TYPE.AH2C, Binding.none, false, false⟩
      else
        ⟨STATUS_SUCCESS, DEVNODE_TYPE.AH2C, Binding.engine r.2 DirToDev.H2C, true, false⟩
    | DEVNODE_TYPE.AC2H =>
      let engine := adma.engines r.2 DirToDev.C2H
      if engine.enabled = false then
        ⟨STATUS_INVALID_PARAMETER, DEVNODE_TYPE.AC2H, Binding.none, false, false⟩
      else
        ⟨STATUS_SUCCESS, DEVNODE_TYPE.AC2H, Binding.engine r.2 DirToDev.C2H, true, false⟩
    | DEVNODE_TYPE.EVENTS =>
      ⟨STATUS_SUCCESS, DEVNODE_TYPE.EVENTS, Binding.event r.2, false, false⟩

/-! Externally visible effects of a routine, in program order.  `dmaInit`,
`markCancelable` and `dmaExecute` record the corresponding `Wdf` call
succeeding; `complete`/`completeWithInfo` record `WdfRequestComplete` /
`WdfRequestCompleteWithInformation`; `forwardToQueue` records a successful
`WdfRequestForwardToIoQueue`. -/

inductive Action where
  | forwardToQueue
  | complete (status : Nat)
  | completeWithInfo (status : Nat) (info : Nat)
  | dmaInit
  | markCancelable
  | dmaExecute
  | pollTransfer
  | dmaRelease
  | engineStop
  | unmarkCancelable
  | clearEvent
  | waitEvent
  | writeBool (b : Bool)
  | readBar (width : Nat) (count : Nat)
  | writeBar (width : Nat) (count : Nat)
deriving DecidableEq, Repr

def isCompletion : Action → Bool
  | Action.complete _ => true
  | Action.completeWithInfo _ _ => true
  | _ => false

def isRelease : Action → Bool
  | Action.dmaRelease => true
  | _ => false

def isForward : Action → Bool
  | Action.forwardToQueue => true
  | _ => false

def countP (p : Action → Bool) (tr : List Action) : Nat := (tr.filter p).length

def completionCount (tr : List Action) : Nat := countP isCompletion tr

def releaseCount (tr : List Action) : Nat := countP isRelease tr

def forwardCount (tr : List Action) : Nat := countP isForward tr

/-- The request is completed exactly once and not forwarded, or forwarded
exactly once and not completed. -/
def completedOrForwardedOnce (tr : List Action) : Prop :=
  (completionCount tr = 1 ∧ forwardCount tr = 0) ∨
  (completionCount tr = 0 ∧ forwardCount tr = 1)

/-- Exactly one transaction release and one request completion, the completion
carrying status `s`, and no completion before the release. -/
def releasedOnceThenCompletedOnce (tr : List Action) (s : Nat) : Prop :=
  releaseCount tr = 1 ∧ completionCount tr = 1 ∧
  completionCount (tr.takeWhile fun a => !(isRelease a)) = 0 ∧
  Action.complete s ∈ tr

/-- `sizeof(BOOLEAN)` in bytes. -/
def sizeofBOOLEAN : Nat := 1

/-- `size_t` arithmetic is modulo `2^64`. -/
def SIZE_T_MOD : Nat := 2 ^ 64

/-- `ValidateBarParams` (lines 198-217).  The C comparison
`offset + length >= adma->barLength[nBar]` is on `size_t` values, i.e. on the
wrapped sum. -/
def ValidateBarParams (adma : ADMA_DEVICE) (nBar offset length : Nat) : Nat :=
  if length = 0 then STATUS_INVALID_DEVICE_REQUEST
  else if adma.numBars ≤ nBar then STATUS_INVALID_DEVICE_REQUEST
  else if adma.barLength nBar ≤ (offset + length) % SIZE_T_MOD then
    STATUS_INVALID_DEVICE_REQUEST
  else STATUS_SUCCESS

/-- `ReadBarToRequest` (lines 219-259): re-checks `length != 0`, retrieves the
output memory (`retrieveStatus` is the framework's answer), then reads the BAR
at the widest of 4-, 2-, 1-byte granularity that divides `length`. -/
def ReadBarToRequest (length retrieveStatus : Nat) : Nat × List Action :=
  if length = 0 then (STATUS_INVALID_DEVICE_REQUEST, [])
  else if NT_SUCCESS retrieveStatus = false then (retrieveStatus, [])
  else if length % 4 = 0 then (retrieveStatus, [Action.readBar 4 (length / 4)])
  else if length % 2 = 0 then (retrieveStatus, [Action.readBar 2 (length / 2)])
  else (retrieveStatus, [Action.readBar 1 length])

/-- `WriteBarFromRequest` (lines 261-302): same structure in the write
direction. -/
def WriteBarFromRequest (length retrieveStatus : Nat) : Nat × List Action :=
  if length = 0 then (STATUS_INVALID_DEVICE_REQUEST, [])
  else if NT_SUCCESS retrieveStatus = false then (retrieveStatus, [])
  else if length % 4 = 0 then (retrieveStatus, [Action.writeBar 4 (length / 4)])
  else if length % 2 = 0 then (retrieveStatus, [Action.writeBar 2 (length / 2)])
  else (retrieveStatus, [Action.writeBar 1 length])

/-- Results of the framework calls `EvtReadUserEvent` consumes:
`waitTimedOut` is whether `KeWaitForSingleObject` returned `STATUS_TIMEOUT`,
`retrieveStatus` is `WdfRequestRetrieveOutputMemory`'s result, `bufSize` the
size reported by `WdfMemoryGetBuffer`, `copyStatus` the result of
`WdfMemoryCopyFromBuffer`. -/
structure EventEnv where
  waitTimedOut : Bool
  retrieveStatus : Nat
  bufSize : Nat
  copyStatus : Nat
deriving DecidableEq, Repr

/-- `EvtReadUserEvent` (lines 728-786).  Returns the routine's `status` result
and its action trace; the copy into the caller's buffer is `writeBool` and is
attempted (and recorded) only when the preceding checks passed. -/
def EvtReadUserEvent (length : Nat) (env : EventEnv) : Nat × List Action :=
  if length ≠ sizeofBOOLEAN then (STATUS_INVALID_PARAMETER, [])
  else
    let eventValue := !env.waitTimedOut
    let waitTrace := [Action.clearEvent, Action.waitEvent]
    if NT_SUCCESS env.retrieveStatus = false then (env.retrieveStatus, waitTrace)
    else if env.bufSize ≠ sizeofBOOLEAN then (STATUS_INVALID_PARAMETER, waitTrace)
    else if NT_SUCCESS env.copyStatus = false then (env.copyStatus, waitTrace)
    else (env.copyStatus,
          waitTrace ++ [Action.writeBool eventValue,
                        Action.completeWithInfo env.copyStatus env.bufSize])

/-- `EvtIoRead` (lines 304-371): dispatch on the node kind; a failing status
from the branch is completed at the common exit. -/
def EvtIoRead (devType : DEVNODE_TYPE) (length forwardStatus barRetrieveStatus : Nat)
    (eventEnv : EventEnv) : List Action :=
  match devType with
  | DEVNODE_TYPE.C2H =>
    if NT_SUCCESS forwardStatus then [Action.forwardToQueue]
    else [Action.complete forwardStatus]
  | DEVNODE_TYPE.AC2H =>
    if NT_SUCCESS forwardStatus then [Action.forwardToQueue]
    else [Action.complete forwardStatus]
  | DEVNODE_TYPE.USER | DEVNODE_TYPE.CONTROL | DEVNODE_TYPE.BYPASS =>
    let r := ReadBarToRequest length barRetrieveStatus
    if NT_SUCCESS r.1 then r.2 ++ [Action.completeWithInfo r.1 length]
    else r.2 ++ [Action.complete r.1]
  | DEVNODE_TYPE.EVENTS =>
    let r := EvtReadUserEvent length eventEnv
    if NT_SUCCESS r.1 then r.2
    else r.2 ++ [Action.complete r.1]
  | _ => [Action.complete STATUS_INVALID_DEVICE_REQUEST]

/-- `EvtIoWrite` (lines 373-428): H2C nodes forward, BAR nodes write
synchronously, everything else (C2H, AC2H, EVENTS, UNKNOWN) falls to the
default error arm. -/
def EvtIoWrite (devType : DEVNODE_TYPE) (length forwardStatus barRetrieveStatus : Nat) :
    List Action :=
  match devType with
  | DEVNODE_TYPE.H2C =>
    if NT_SUCCESS forwardStatus then [Action.forwardToQueue]
    else [Action.complete forwardStatus]
  | DEVNODE_TYPE.AH2C =>
    if NT_SUCCESS forwardStatus then [Action.forwardToQueue]
    else [Action.complete forwardStatus]
  | DEVNODE_TYPE.USER | DEVNODE_TYPE.CONTROL | DEVNODE_TYPE.BYPASS =>
    let r := WriteBarFromRequest length barRetrieveStatus
    if NT_SUCCESS r.1 then r.2 ++ [Action.completeWithInfo r.1 length]
    else r.2 ++ [Action.complete r.1]
  | _ => [Action.complete STATUS_INVALID_DEVICE_REQUEST]

/-- `EvtIoWriteDma` (lines 576-624): initialize the transaction, mark the
request cancelable, execute; on any failure jump to `ErrExit`, which releases
the transaction and then completes the request with the failing status.  On
success, poll-mode engines run `EnginePollTransfer` inline (it completes or
cleans up the request itself); otherwise the routine returns and the
interrupt path completes later. -/
def EvtIoWriteDma (engine : ADMA_ENGINE) (initStatus markStatus execStatus : Nat) :
    List Action :=
  if NT_SUCCESS initStatus = false then
    [Action.dmaRelease, Action.complete initStatus]
  else if NT_SUCCESS markStatus = false then
    [Action.dmaInit, Action.dmaRelease, Action.complete markStatus]
  else if NT_SUCCESS execStatus = false then
    [Action.dmaInit, Action.markCancelable, Action.dmaRelease, Action.complete execStatus]
  else if engine.poll then
    [Action.dmaInit, Action.markCancelable, Action.dmaExecute, Action.pollTransfer]
  else
    [Action.dmaInit, Action.markCancelable, Action.dmaExecute]

/-- `EvtIoReadDma` (lines 626-674): identical to the write path except that
the poll-mode block is compiled out (`#if 0`, lines 660-668), so the routine
never polls. -/
def EvtIoReadDma (_engine : ADMA_ENGINE) (initStatus markStatus execStatus : Nat) :
    List Action :=
  if NT_SUCCESS initStatus = false then
    [Action.dmaRelease, Action.complete initStatus]
  else if NT_SUCCESS markStatus = false then
    [Action.dmaInit, Action.dmaRelease, Action.complete markStatus]
  else if NT_SUCCESS execStatus = false then
    [Action.dmaInit, Action.markCancelable, Action.dmaRelease, Action.complete execStatus]
  else
    [Action.dmaInit, Action.markCancelable, Action.dmaExecute]

/-- `EvtCancelDma` (lines 701-714): stop the engine, unmark cancelable,
release the transaction, complete the request with `STATUS_CANCELLED`. -/
def EvtCancelDma : List Action :=
  [Action.engineStop, Action.unmarkCancelable, Action.dmaRelease,
   Action.complete STATUS_CANCELLED]

/-! The cancel-vs-completion race.  `EvtCancelDma` lives in `file_io.c`; the
natural hardware completion callback and the mutual exclusion provided by the
framework's cancellation markers (`WdfRequestMarkCancelableEx` /
`WdfRequestUnmarkCancelable`) live outside the sources. -/

structure RaceState where
  terminal : Bool
  releases : Nat
  completions : Nat
deriving DecidableEq, Repr

def initialRace : RaceState := ⟨false, 0, 0⟩

/-- Modelled from the spec: §4.2 requires that only one of the cancel path and
the normal-completion path performs the terminal release+complete sequence;
the loser observes the transaction already terminal and takes no further
action.  The winner's cancel-path actions are those of `EvtCancelDma`. -/
def cancelStep (s : RaceState) : RaceState × List Action :=
  if s.terminal then (s, [])
  else (⟨true, s.releases + 1, s.completions + 1⟩, EvtCancelDma)

/-- Modelled from the spec: the natural hardware completion path (the
interrupt/poll finalisation in `adma_engine.c`, outside the sources) releases
the transaction and completes the request with the transferred byte count,
under the same one-shot terminal guard of §4.2. -/
def hwCompleteStep (bytes : Nat) (s : RaceState) : RaceState × List Action :=
  if s.terminal then (s, [])
  else (⟨true, s.releases + 1, s.completions + 1⟩,
        [Action.dmaRelease, Action.completeWithInfo STATUS_SUCCESS bytes])

/-- Both interleavings of the two racing paths on one transaction. -/
def runRace (cancelFirst : Bool) (bytes : Nat) : RaceState × List Action :=
  if cancelFirst then
    let r1 := cancelStep initialRace
    let r2 := hwCompleteStep bytes r1.1
    (r2.1, r1.2 ++ r2.2)
  else
    let r1 := hwCompleteStep bytes initialRace
    let r2 := cancelStep r1.1
    (r2.1, r1.2 ++ r2.2)

/-- The widest of 4, 2, 1 bytes that evenly divides `length`; the access
granularity selected by `ReadBarToRequest` and `WriteBarFromRequest`. -/
def barAccessWidth (length : Nat) : Nat :=
  if length % 4 = 0 then 4 else if length % 2 = 0 then 2 else 1

/-! Concrete fixtures. -/

def disabledEngine : ADMA_ENGINE := ⟨false, false, false⟩

def pollEngine : ADMA_ENGINE := ⟨true, true, false⟩

def smallAdma : ADMA_DEVICE :=
  ⟨1, fun _ => 16, 0, -1, -1, fun _ _ => disabledEngine⟩

/-! Helper lemmas about traces. -/

theorem countP_append (p : Action → Bool) (l1 l2 : List Action) :
    countP p (l1 ++ l2) = countP p l1 + countP p l2 := by
  simp [countP, List.filter_append]

theorem completedOrForwardedOnce_of_counts (tr : List Action)
    (h1 : completionCount tr = 1) (h2 : forwardCount tr = 0) :
    completedOrForwardedOnce tr :=
  Or.inl ⟨h1, h2⟩

theorem completedOrForwardedOnce_append_complete (tr : List Action) (s : Nat)
    (h1 : completionCount tr = 0) (h2 : forwardCount tr = 0) :
    completedOrForwardedOnce (tr ++ [Action.complete s]) := by
  refine Or.inl ⟨?_, ?_⟩
  · rw [completionCount, countP_append, ← completionCount, h1]
    simp [countP, isCompletion]
  · rw [forwardCount, countP_append, ← forwardCount, h2]
    simp [countP, isForward]

theorem completedOrForwardedOnce_append_completeWithInfo (tr : List Action)
    (s info : Nat) (h1 : completionCount tr = 0) (h2 : forwardCount tr = 0) :
    completedOrForwardedOnce (tr ++ [Action.completeWithInfo s info]) := by
  refine Or.inl ⟨?_, ?_⟩
  · rw [completionCount, countP_append, ← completionCount, h1]
    simp [countP, isCompletion]
  · rw [forwardCount, countP_append, ← forwardCount, h2]
    simp [countP, isForward]

theorem readBarToRequest_trace_pure (length s : Nat) :
    completionCount (ReadBarToRequest length s).2 = 0 ∧
    forwardCount (ReadBarToRequest length s).2 = 0 := by
  unfold ReadBarToRequest
  repeat' split
  all_goals simp [completionCount, forwardCount, countP, isCompletion, isForward]

theorem writeBarFromRequest_trace_pure (length s : Nat) :
    completionCount (WriteBarFromRequest length s).2 = 0 ∧
    forwardCount (WriteBarFromRequest length s).2 = 0 := by
  unfold WriteBarFromRequest
  repeat' split
  all_goals simp [completionCount, forwardCount, countP, isCompletion, isForward]

theorem evtReadUserEvent_terminal (length : Nat) (env : EventEnv) :
    (NT_SUCCESS (EvtReadUserEvent length env).1 = true →
      completionCount (EvtReadUserEvent length env).2 = 1 ∧
      forwardCount (EvtReadUserEvent length env).2 = 0) ∧
    (NT_SUCCESS (EvtReadUserEvent length env).1 = false →
      completionCount (EvtReadUserEvent length env).2 = 0 ∧
      forwardCount (EvtReadUserEvent length env).2 = 0) := by
  unfold EvtReadUserEvent
  repeat' split
  all_goals
    simp_all [completionCount, forwardCount, countP, isCompletion, isForward, NT_SUCCESS,
      STATUS_INVALID_PARAMETER]

/-- C1.  For every Transaction, when a cancellation (`EvtCancelDma`) races with
the natural hardware completion of the same Transaction, exactly one terminal
outcome is delivered to the caller and the Transaction's resources
(`WdfDmaTransactionRelease`) are released exactly once — never zero times and
never twice.  Both interleavings of the race are covered. -/
theorem cancel_completion_race_exactly_once (cancelFirst : Bool) (bytes : Nat) :
    (runRace cancelFirst bytes).1.releases = 1 ∧
    (runRace cancelFirst bytes).1.completions = 1 ∧
    releaseCount (runRace cancelFirst bytes).2 = 1 ∧
    completionCount (runRace cancelFirst bytes).2 = 1 := by
  cases cancelFirst <;>
    simp [runRace, cancelStep, hwCompleteStep, initialRace, EvtCancelDma,
      releaseCount, completionCount, countP, isRelease, isCompletion]

theorem completedOrForwardedOnce_single_complete (s : Nat) :
    completedOrForwardedOnce [Action.complete s] :=
  Or.inl (by simp [completionCount, forwardCount, countP, isCompletion, isForward])

theorem completedOrForwardedOnce_forward_branch (s : Nat) :
    completedOrForwardedOnce
      (if NT_SUCCESS s then [Action.forwardToQueue] else [Action.complete s]) := by
  split
  · exact Or.inr (by simp [completionCount, forwardCount, countP, isCompletion, isForward])
  · exact completedOrForwardedOnce_single_complete s

theorem completedOrForwardedOnce_sync_branch (tr : List Action) (st info : Nat)
    (h1 : completionCount tr = 0) (h2 : forwardCount tr = 0) :
    completedOrForwardedOnce
      (if NT_SUCCESS st then tr ++ [Action.completeWithInfo st info]
       else tr ++ [Action.complete st]) := by
  split
  · exact completedOrForwardedOnce_append_completeWithInfo tr st info h1 h2
  · exact completedOrForwardedOnce_append_complete tr st h1 h2

theorem completedOrForwardedOnce_event_branch (length : Nat) (env : EventEnv) :
    completedOrForwardedOnce
      (if NT_SUCCESS (EvtReadUserEvent length env).1 then (EvtReadUserEvent length env).2
       else (EvtReadUserEvent length env).2 ++
            [Action.complete (EvtReadUserEvent length env).1]) := by
  rcases evtReadUserEvent_terminal length env with ⟨hT, hF⟩
  split
  · next h => exact completedOrForwardedOnce_of_counts _ (hT h).1 (hT h).2
  · next h =>
    have hf : NT_SUCCESS (EvtReadUserEvent length env).1 = false := by
      simpa using h
    exact completedOrForwardedOnce_append_complete _ _ (hF hf).1 (hF hf).2

/-- C2.  For every request and every device-node kind, the read dispatch
(`EvtIoRead`) and write dispatch (`EvtIoWrite`) either complete the request
exactly once or forward it to a queue exactly once, never both and never
neither, on every control-flow path including every error path (all framework
call results are quantified over). -/
theorem request_dispatch_complete_or_forward_once (devType : DEVNODE_TYPE)
    (length forwardStatus barRetrieveStatus : Nat) (eventEnv : EventEnv) :
    completedOrForwardedOnce (EvtIoRead devType length forwardStatus barRetrieveStatus eventEnv) ∧
    completedOrForwardedOnce (EvtIoWrite devType length forwardStatus barRetrieveStatus) := by
  have hbarR := readBarToRequest_trace_pure length barRetrieveStatus
  have hbarW := writeBarFromRequest_trace_pure length barRetrieveStatus
  cases devType with
  | H2C =>
    exact ⟨completedOrForwardedOnce_single_complete _,
           completedOrForwardedOnce_forward_branch forwardStatus⟩
  | C2H =>
    exact ⟨completedOrForwardedOnce_forward_branch forwardStatus,
           completedOrForwardedOnce_single_complete _⟩
  | AH2C =>
    exact ⟨completedOrForwardedOnce_single_complete _,
           completedOrForwardedOnce_forward_branch forwardStatus⟩
  | AC2H =>
    exact ⟨completedOrForwardedOnce_forward_branch forwardStatus,
           completedOrForwardedOnce_single_complete _⟩
  | USER =>
    exact ⟨completedOrForwardedOnce_sync_branch _ _ length hbarR.1 hbarR.2,
           completedOrForwardedOnce_sync_branch _ _ length hbarW.1 hbarW.2⟩
  | CONTROL =>
    exact ⟨completedOrForwardedOnce_sync_branch _ _ length hbarR.1 hbarR.2,
           completedOrForwardedOnce_sync_branch _ _ length hbarW.1 hbarW.2⟩
  | BYPASS =>
    exact ⟨completedOrForwardedOnce_sync_branch _ _ length hbarR.1 hbarR.2,
           completedOrForwardedOnce_sync_branch _ _ length hbarW.1 hbarW.2⟩
  | EVENTS =>
    exact ⟨completedOrForwardedOnce_event_branch length eventEnv,
           completedOrForwardedOnce_single_complete _⟩
  | UNKNOWN =>
    exact ⟨completedOrForwardedOnce_single_complete _,
           completedOrForwardedOnce_single_complete _⟩

/-- C3 counterexample.  The submit path itself (`EvtIoWriteDma`) performs no
`enabled` check: run against a disabled engine with every framework call
succeeding, it initializes and executes a DMA transaction and never completes
the request with any failure status — it does not fail fast with a
DeviceNotReady outcome.  (The guard against disabled engines lives in
`EvtDeviceFileCreate` instead, and rejects with `STATUS_INVALID_PARAMETER`,
not with `STATUS_DEVICE_NOT_READY`.) -/
theorem evtIoWriteDma_disabled_engine_creates_transaction :
    EvtIoWriteDma disabledEngine 0 0 0 =
      [Action.dmaInit, Action.markCancelable, Action.dmaExecute] ∧
    Action.dmaInit ∈ EvtIoWriteDma disabledEngine 0 0 0 ∧
    completionCount (EvtIoWriteDma disabledEngine 0 0 0) = 0 ∧
    Action.complete STATUS_DEVICE_NOT_READY ∉ EvtIoWriteDma disabledEngine 0 0 0 := by
  refine ⟨rfl, ?_, rfl, ?_⟩ <;> decide

/-- C3 amended.  The disabled-engine guard is enforced when the node is
opened, not at submission: for every device state whose engine is disabled,
`EvtDeviceFileCreate` on the corresponding DMA node fails with
`STATUS_INVALID_PARAMETER` and binds no engine and no queue, so no request can
ever be forwarded to that engine's queue and no Transaction is created for
it. -/
theorem disabled_engine_open_fails (adma : ADMA_DEVICE) :
    ((adma.engines 0 DirToDev.H2C).enabled = false →
      EvtDeviceFileCreate adma (Option.some ADMA_FILE_H2C_0) =
        ⟨STATUS_INVALID_PARAMETER, DEVNODE_TYPE.AH2C, Binding.none, false, false⟩) ∧
    ((adma.engines 0 DirToDev.C2H).enabled = false →
      EvtDeviceFileCreate adma (Option.some ADMA_FILE_C2H_0) =
        ⟨STATUS_INVALID_PARAMETER, DEVNODE_TYPE.AC2H, Binding.none, false, false⟩) := by
  constructor <;> intro h <;>
    simp [EvtDeviceFileCreate, GetDevNodeType, lutScan, FileNameLUT, ADMA_FILE_H2C_0,
      ADMA_FILE_C2H_0, ADMA_FILE_USER, ADMA_FILE_CONTROL, h]

theorem disabled_engine_open_fails_witness :
    (smallAdma.engines 0 DirToDev.H2C).enabled = false ∧
    EvtDeviceFileCreate smallAdma (Option.some ADMA_FILE_H2C_0) =
      ⟨STATUS_INVALID_PARAMETER, DEVNODE_TYPE.AH2C, Binding.none, false, false⟩ :=
  ⟨rfl, (disabled_engine_open_fails smallAdma).1 rfl⟩

/-- C4.  On every setup failure occurring after the DMA Transaction was
initialized — mark-cancelable failure, or execute failure — both the H2C write
path and the C2H read path release the Transaction exactly once before
completing the request exactly once with the failing status; no path leaks
the Transaction or completes before releasing. -/
theorem dma_error_path_release_before_complete (engine : ADMA_ENGINE)
    (initStatus markStatus execStatus : Nat) (hi : NT_SUCCESS initStatus = true) :
    (NT_SUCCESS markStatus = false →
      releasedOnceThenCompletedOnce (EvtIoWriteDma engine initStatus markStatus execStatus)
        markStatus ∧
      releasedOnceThenCompletedOnce (EvtIoReadDma engine initStatus markStatus execStatus)
        markStatus) ∧
    (NT_SUCCESS markStatus = true → NT_SUCCESS execStatus = false →
      releasedOnceThenCompletedOnce (EvtIoWriteDma engine initStatus markStatus execStatus)
        execStatus ∧
      releasedOnceThenCompletedOnce (EvtIoReadDma engine initStatus markStatus execStatus)
        execStatus) := by
  constructor
  · intro hm
    constructor <;>
      simp [EvtIoWriteDma, EvtIoReadDma, hi, hm, releasedOnceThenCompletedOnce,
        releaseCount, completionCount, countP, isRelease, isCompletion, List.takeWhile]
  · intro hm he
    constructor <;>
      simp [EvtIoWriteDma, EvtIoReadDma, hi, hm, he, releasedOnceThenCompletedOnce,
        releaseCount, completionCount, countP, isRelease, isCompletion, List.takeWhile]

theorem dma_error_path_release_before_complete_witness :
    releasedOnceThenCompletedOnce (EvtIoWriteDma disabledEngine 0 0xC0000001 0)
      0xC0000001 ∧
    releasedOnceThenCompletedOnce (EvtIoReadDma disabledEngine 0 0 0xC0000001)
      0xC0000001 :=
  ⟨((dma_error_path_release_before_complete disabledEngine 0 0xC0000001 0
      (by decide)).1 (by decide)).1,
   ((dma_error_path_release_before_complete disabledEngine 0 0 0xC0000001
      (by decide)).2 (by decide) (by decide)).2⟩

/-- C5 counterexample.  With `offset = 2^64 - 1` (for instance a negative
caller file offset cast to `size_t`) and `length = 2`, the mathematical sum
`offset + length = 2^64 + 1` is far beyond `barLength = 16`, yet
`ValidateBarParams` succeeds, because the `size_t` addition wraps around to 1:
the claim "validation fails whenever offset+length >= barLength, for all bar
sizes and offsets" does not hold for the code. -/
theorem validateBarParams_overflow_accepts :
    16 ≤ 2 ^ 64 - 1 + 2 ∧
    ValidateBarParams smallAdma 0 (2 ^ 64 - 1) 2 = STATUS_SUCCESS := by
  constructor
  · decide
  · decide

/-- C5 amended.  `ValidateBarParams` succeeds iff `length ≠ 0`, the BAR index
is in range, and the `size_t`-wrapped sum `(offset + length) mod 2^64` is
strictly below the bar's length; every failure is the out-of-range status.  In
particular, whenever `offset + length` does not overflow a 64-bit `size_t`,
the claim holds exactly as stated, including the boundary case
`offset + length = barLength`, which fails. -/
theorem validateBarParams_spec (adma : ADMA_DEVICE) (nBar offset length : Nat) :
    (ValidateBarParams adma nBar offset length = STATUS_SUCCESS ↔
      length ≠ 0 ∧ nBar < adma.numBars ∧
        (offset + length) % SIZE_T_MOD < adma.barLength nBar) ∧
    (ValidateBarParams adma nBar offset length ≠ STATUS_SUCCESS →
      ValidateBarParams adma nBar offset length = STATUS_INVALID_DEVICE_REQUEST) ∧
    (offset + length < SIZE_T_MOD →
      (ValidateBarParams adma nBar offset length = STATUS_INVALID_DEVICE_REQUEST ↔
        length = 0 ∨ adma.numBars ≤ nBar ∨ adma.barLength nBar ≤ offset + length)) := by
  refine ⟨?_, ?_, ?_⟩
  · unfold ValidateBarParams
    repeat' split
    all_goals
      simp_all [STATUS_SUCCESS, STATUS_INVALID_DEVICE_REQUEST]
  · unfold ValidateBarParams
    repeat' split
    all_goals simp [STATUS_SUCCESS, STATUS_INVALID_DEVICE_REQUEST]
  · intro hlt
    have hmod : (offset + length) % SIZE_T_MOD = offset + length := Nat.mod_eq_of_lt hlt
    unfold ValidateBarParams
    rw [hmod]
    repeat' split
    all_goals
      simp_all [STATUS_SUCCESS, STATUS_INVALID_DEVICE_REQUEST]

theorem validateBarParams_spec_witness :
    ValidateBarParams smallAdma 0 12 4 = STATUS_INVALID_DEVICE_REQUEST :=
  ((validateBarParams_spec smallAdma 0 12 4).2.2 (by decide)).mpr
    (Or.inr (Or.inr (by decide)))

/-- C6 counterexample.  On the C2H read submission path the poll block is
compiled out (`#if 0`, `file_io.c` lines 660-668): with `poll = true` and
every framework call succeeding, `EvtIoReadDma` neither polls nor completes
the request inline, contradicting the claim that poll-mode behaviour holds
uniformly on both directions. -/
theorem evtIoReadDma_never_polls :
    pollEngine.poll = true ∧
    EvtIoReadDma pollEngine 0 0 0 =
      [Action.dmaInit, Action.markCancelable, Action.dmaExecute] ∧
    Action.pollTransfer ∉ EvtIoReadDma pollEngine 0 0 0 ∧
    completionCount (EvtIoReadDma pollEngine 0 0 0) = 0 := by
  refine ⟨rfl, rfl, ?_, rfl⟩
  decide

/-- C6 amended.  On the H2C write path, `poll = true` makes the submitting
context invoke `EnginePollTransfer` inline after a successful execute, and
`poll = false` makes the submitter return after execute without blocking or
completing (the interrupt path completes later); on the C2H read path the
submitter never polls, regardless of the poll flag, and completion is always
delivered by the completion/interrupt path. -/
theorem dma_poll_mode_dispatch (engine : ADMA_ENGINE)
    (initStatus markStatus execStatus : Nat) (hi : NT_SUCCESS initStatus = true)
    (hm : NT_SUCCESS markStatus = true) (he : NT_SUCCESS execStatus = true) :
    (engine.poll = true →
      EvtIoWriteDma engine initStatus markStatus execStatus =
        [Action.dmaInit, Action.markCancelable, Action.dmaExecute, Action.pollTransfer]) ∧
    (engine.poll = false →
      EvtIoWriteDma engine initStatus markStatus execStatus =
        [Action.dmaInit, Action.markCancelable, Action.dmaExecute] ∧
      completionCount (EvtIoWriteDma engine initStatus markStatus execStatus) = 0) ∧
    (EvtIoReadDma engine initStatus markStatus execStatus =
        [Action.dmaInit, Action.markCancelable, Action.dmaExecute] ∧
      Action.pollTransfer ∉ EvtIoReadDma engine initStatus markStatus execStatus) := by
  refine ⟨?_, ?_, ?_, ?_⟩
  · intro hp
    simp [EvtIoWriteDma, hi, hm, he, hp]
  · intro hp
    constructor <;>
      simp [EvtIoWriteDma, hi, hm, he, hp, completionCount, countP, isCompletion]
  · simp [EvtIoReadDma, hi, hm, he]
  · simp [EvtIoReadDma, hi, hm, he]

theorem dma_poll_mode_dispatch_witness :
    EvtIoWriteDma pollEngine 0 0 0 =
      [Action.dmaInit, Action.markCancelable, Action.dmaExecute, Action.pollTransfer] :=
  (dma_poll_mode_dispatch pollEngine 0 0 0 (by decide) (by decide) (by decide)).1 rfl

/-- C7 counterexample.  The lookup table has no `events_<n>` entry, so
`GetDevNodeType` maps `events_0` to `UNKNOWN` — not to an event-channel node
as the claim's table requires — and opening it fails with
`STATUS_INVALID_PARAMETER`. -/
theorem events_name_not_recognized :
    GetDevNodeType "events_0" = (DEVNODE_TYPE.UNKNOWN, 0) ∧
    DEVNODE_TYPE.UNKNOWN ≠ DEVNODE_TYPE.EVENTS ∧
    (EvtDeviceFileCreate smallAdma (Option.some "events_0")).status =
      STATUS_INVALID_PARAMETER := by
  refine ⟨by decide, by decide, by decide⟩

/-- C7 amended.  Exactly four symbolic names are recognized: `h2c_0` maps to
the H2C DMA-channel kind, `c2h_0` to the C2H DMA-channel kind, `user` to the
user register-BAR kind, `control` to the control register-BAR kind; every
other name — including every `events_<n>` and every streaming variant — yields
`UNKNOWN`, on which the open fails with `STATUS_INVALID_PARAMETER` and binds
no resource. -/
theorem devnode_name_mapping (name : String)
    (h : name ≠ ADMA_FILE_H2C_0 ∧ name ≠ ADMA_FILE_C2H_0 ∧
         name ≠ ADMA_FILE_USER ∧ name ≠ ADMA_FILE_CONTROL) :
    GetDevNodeType ADMA_FILE_H2C_0 = (DEVNODE_TYPE.AH2C, 0) ∧
    GetDevNodeType ADMA_FILE_C2H_0 = (DEVNODE_TYPE.AC2H, 0) ∧
    GetDevNodeType ADMA_FILE_USER = (DEVNODE_TYPE.USER, 0) ∧
    GetDevNodeType ADMA_FILE_CONTROL = (DEVNODE_TYPE.CONTROL, 0) ∧
    GetDevNodeType name = (DEVNODE_TYPE.UNKNOWN, 0) ∧
    ∀ adma : ADMA_DEVICE,
      (EvtDeviceFileCreate adma (Option.some name)).status = STATUS_INVALID_PARAMETER ∧
      (EvtDeviceFileCreate adma (Option.some name)).binding = Binding.none := by
  obtain ⟨h1, h2, h3, h4⟩ := h
  have hname : GetDevNodeType name = (DEVNODE_TYPE.UNKNOWN, 0) := by
    simp [GetDevNodeType, lutScan, FileNameLUT, h1, h2, h3, h4]
  refine ⟨by decide, by decide, by decide, by decide, hname, ?_⟩
  intro adma
  constructor <;> simp [EvtDeviceFileCreate, hname]

theorem devnode_name_mapping_witness :
    GetDevNodeType "events_0" = (DEVNODE_TYPE.UNKNOWN, 0) ∧
    (EvtDeviceFileCreate smallAdma (Option.some "events_0")).binding = Binding.none :=
  ⟨(devnode_name_mapping "events_0" (by decide)).2.2.2.2.1,
   ((devnode_name_mapping "events_0" (by decide)).2.2.2.2.2 smallAdma).2⟩

/-- C8.  For every event-wait request of the correct one-byte size, the event
is cleared before the wait begins (the trace always starts with `clearEvent`
then `waitEvent`, so a stale prior signal cannot satisfy the new wait), and on
the signaled and timed-out terminal outcomes exactly one boolean-sized output
value is written back: `true` when the event was signaled within the timeout,
`false` when the wait timed out. -/
theorem event_wait_clear_and_output (env : EventEnv)
    (hr : env.retrieveStatus = STATUS_SUCCESS) (hb : env.bufSize = sizeofBOOLEAN)
    (hc : env.copyStatus = STATUS_SUCCESS) :
    (EvtReadUserEvent sizeofBOOLEAN env).2 =
      [Action.clearEvent, Action.waitEvent, Action.writeBool (!env.waitTimedOut),
       Action.completeWithInfo STATUS_SUCCESS sizeofBOOLEAN] ∧
    countP (fun a => a == Action.writeBool (!env.waitTimedOut))
      (EvtReadUserEvent sizeofBOOLEAN env).2 = 1 ∧
    ∀ env2 : EventEnv,
      (EvtReadUserEvent sizeofBOOLEAN env2).2.take 2 =
        [Action.clearEvent, Action.waitEvent] := by
  refine ⟨?_, ?_, ?_⟩
  · simp [EvtReadUserEvent, hr, hb, hc, sizeofBOOLEAN, STATUS_SUCCESS, NT_SUCCESS]
  · simp [EvtReadUserEvent, hr, hb, hc, sizeofBOOLEAN, STATUS_SUCCESS, NT_SUCCESS, countP]
  · intro env2
    unfold EvtReadUserEvent
    repeat' split
    all_goals simp_all [sizeofBOOLEAN]

theorem event_wait_clear_and_output_witness :
    (EvtReadUserEvent sizeofBOOLEAN ⟨true, 0, 1, 0⟩).2 =
      [Action.clearEvent, Action.waitEvent, Action.writeBool false,
       Action.completeWithInfo STATUS_SUCCESS sizeofBOOLEAN] :=
  (event_wait_clear_and_output ⟨true, 0, 1, 0⟩ rfl rfl rfl).1

/-- C9.  For every BAR read or write with `length > 0` whose output buffer was
retrieved, the access is performed at the widest granularity that evenly
divides `length` — 4-byte units when 4 divides `length`, else 2-byte units
when 2 divides it, else single bytes — identically in the read and the write
direction. -/
theorem bar_access_granularity (length retrieveStatus : Nat)
    (h : length ≠ 0) (hs : NT_SUCCESS retrieveStatus = true) :
    (ReadBarToRequest length retrieveStatus).2 =
      [Action.readBar (barAccessWidth length) (length / barAccessWidth length)] ∧
    (WriteBarFromRequest length retrieveStatus).2 =
      [Action.writeBar (barAccessWidth length) (length / barAccessWidth length)] ∧
    barAccessWidth length ∣ length ∧
    ∀ w, (w = 1 ∨ w = 2 ∨ w = 4) → w ∣ length → w ≤ barAccessWidth length := by
  by_cases h4 : length % 4 = 0
  · refine ⟨?_, ?_, ?_, ?_⟩
    · simp [ReadBarToRequest, barAccessWidth, h, hs, h4]
    · simp [WriteBarFromRequest, barAccessWidth, h, hs, h4]
    · simpa [barAccessWidth, h4] using Nat.dvd_of_mod_eq_zero h4
    · intro w hw _
      rcases hw with hw | hw | hw <;> simp [barAccessWidth, h4, hw]
  · by_cases h2 : length % 2 = 0
    · refine ⟨?_, ?_, ?_, ?_⟩
      · simp [ReadBarToRequest, barAccessWidth, h, hs, h4, h2]
      · simp [WriteBarFromRequest, barAccessWidth, h, hs, h4, h2]
      · simpa [barAccessWidth, h4, h2] using Nat.dvd_of_mod_eq_zero h2
      · intro w hw hwdvd
        rcases hw with hw | hw | hw
        · simp [barAccessWidth, h4, h2, hw]
        · simp [barAccessWidth, h4, h2, hw]
        · subst hw
          exact absurd (Nat.mod_eq_zero_of_dvd hwdvd) h4
    · refine ⟨?_, ?_, ?_, ?_⟩
      · simp [ReadBarToRequest, barAccessWidth, h, hs, h4, h2]
      · simp [WriteBarFromRequest, barAccessWidth, h, hs, h4, h2]
      · simp [barAccessWidth, h4, h2]
      · intro w hw hwdvd
        rcases hw with hw | hw | hw
        · simp [barAccessWidth, h4, h2, hw]
        · subst hw
          exact absurd (Nat.mod_eq_zero_of_dvd hwdvd) h2
        · subst hw
          exact absurd (Nat.mod_eq_zero_of_dvd hwdvd) h4

theorem bar_access_granularity_witness :
    (ReadBarToRequest 6 0).2 = [Action.readBar 2 3] ∧
    (WriteBarFromRequest 6 0).2 = [Action.writeBar 2 3] :=
  ⟨(bar_access_granularity 6 0 (by decide) (by decide)).1,
   (bar_access_granularity 6 0 (by decide) (by decide)).2.1⟩

/-- C10.  For every event-wait request whose wait expires, the request is
completed with the (successful) buffer-copy status and information of one
boolean-sized byte carrying the value `false`; the `STATUS_TIMEOUT` result of
`KeWaitForSingleObject` is overwritten by the subsequent
`WdfRequestRetrieveOutputMemory`/`WdfMemoryCopyFromBuffer` statuses before
completion, so the expiry is never surfaced as a Timeout or any other
error. -/
theorem event_wait_timeout_completes_success (env : EventEnv)
    (ht : env.waitTimedOut = true) (hr : env.retrieveStatus = STATUS_SUCCESS)
    (hb : env.bufSize = sizeofBOOLEAN) (hc : env.copyStatus = STATUS_SUCCESS) :
    (EvtReadUserEvent sizeofBOOLEAN env).1 = STATUS_SUCCESS ∧
    NT_SUCCESS (EvtReadUserEvent sizeofBOOLEAN env).1 = true ∧
    (EvtReadUserEvent sizeofBOOLEAN env).1 ≠ STATUS_TIMEOUT ∧
    Action.writeBool false ∈ (EvtReadUserEvent sizeofBOOLEAN env).2 ∧
    Action.completeWithInfo STATUS_SUCCESS sizeofBOOLEAN ∈
      (EvtReadUserEvent sizeofBOOLEAN env).2 := by
  refine ⟨?_, ?_, ?_, ?_, ?_⟩ <;>
    simp [EvtReadUserEvent, ht, hr, hb, hc, sizeofBOOLEAN, STATUS_SUCCESS, STATUS_TIMEOUT,
      NT_SUCCESS]

theorem event_wait_timeout_completes_success_witness :
    (EvtReadUserEvent sizeofBOOLEAN ⟨true, 0, 1, 0⟩).1 = STATUS_SUCCESS ∧
    (EvtReadUserEvent sizeofBOOLEAN ⟨true, 0, 1, 0⟩).1 ≠ STATUS_TIMEOUT :=
  ⟨(event_wait_timeout_completes_success ⟨true, 0, 1, 0⟩ rfl rfl rfl rfl).1,
   (event_wait_timeout_completes_success ⟨true, 0, 1, 0⟩ rfl rfl rfl rfl).2.2.1⟩

end Adma
